import Mathlib

/-!
Shallow embedding of the feedback-collector repository.

Python strings are modelled as lists of characters (`PyStr`), byte strings as
lists of naturals (`PyBytes`).  Python truthiness of a string/list is
non-emptiness.  The i18n collaborator `get_text` is out of scope (spec §1);
localized messages are modelled by their message keys, and the hard-coded
Chinese messages of `validate_feedback` are kept verbatim.
-/

/-- Python `str` modelled as a list of characters. -/
abbrev PyStr := List Char

/-- Python `bytes` modelled as a list of byte values. -/
abbrev PyBytes := List Nat

/-- Python `str.strip()`: drop whitespace from both ends. -/
def pyStrip (s : PyStr) : PyStr :=
  (s.dropWhile Char.isWhitespace).rdropWhile Char.isWhitespace

lemma pyStrip_dropWhile (s : PyStr) :
    (pyStrip s).dropWhile Char.isWhitespace = pyStrip s := by
  rw [List.dropWhile_eq_self_iff]
  intro hl
  have hpre : pyStrip s <+: s.dropWhile Char.isWhitespace :=
    List.rdropWhile_prefix Char.isWhitespace (s.dropWhile Char.isWhitespace)
  have hlen : 0 < (s.dropWhile Char.isWhitespace).length :=
    lt_of_lt_of_le hl (List.IsPrefix.length_le hpre)
  have hget : (pyStrip s)[0] = (s.dropWhile Char.isWhitespace)[0] :=
    hpre.getElem hl
  have hnot := List.dropWhile_get_zero_not Char.isWhitespace s hlen
  simp only [List.get_eq_getElem] at hnot ⊢
  simpa [hget] using hnot

/-- `strip` is idempotent. -/
lemma pyStrip_idem (s : PyStr) : pyStrip (pyStrip s) = pyStrip s :=
  calc pyStrip (pyStrip s)
      = List.rdropWhile Char.isWhitespace ((pyStrip s).dropWhile Char.isWhitespace) := rfl
    _ = List.rdropWhile Char.isWhitespace (pyStrip s) := by rw [pyStrip_dropWhile]
    _ = pyStrip s :=
        List.rdropWhile_idempotent Char.isWhitespace (s.dropWhile Char.isWhitespace)

/-- An image attachment dictionary `{'data': ..., 'source': ...}`. -/
structure Attachment where
  data : PyBytes
  source : PyStr
deriving Repr, DecidableEq

/-- Localized message keys / literal messages used by the core
(`get_text` localization is external; messages are modelled by key). -/
def no_feedback_error : String := "no_feedback_error"

def operation_cancelled : String := "operation_cancelled"

def text_empty_error : String := "文字反馈不能为空"

def text_too_long_error : String := "文字反馈过长，请控制在10000字符以内"

def too_many_images_error : String := "图片数量过多，最多支持10张图片"

/-- `f"第{i+1}张图片数据无效"` for index `i` (0-based). -/
def invalid_image_error (i : Nat) : String :=
  "第" ++ toString (i + 1) ++ "张图片数据无效"

def validation_passed : String := "验证通过"

/-- `FeedbackData.__init__`. -/
structure FeedbackData where
  text_feedback : Option PyStr
  images : List Attachment
  has_text : Bool
  has_images : Bool
deriving Repr, DecidableEq

/-- The fresh session produced by `FeedbackData()`. -/
def FeedbackData.init : FeedbackData :=
  { text_feedback := none, images := [], has_text := false, has_images := false }

/-- `FeedbackData.add_text_feedback`: `if text and text.strip():` store the
stripped text and set `has_text`. -/
def FeedbackData.add_text_feedback (d : FeedbackData) (text : PyStr) : FeedbackData :=
  if text ≠ [] ∧ pyStrip text ≠ [] then
    { d with text_feedback := some (pyStrip text), has_text := true }
  else d

/-- `FeedbackData.add_image`: `if image_data:` append and set `has_images`.
A `None` argument (modelled by `none`) is a no-op. -/
def FeedbackData.add_image (d : FeedbackData) (image_data : Option Attachment) : FeedbackData :=
  match image_data with
  | some a => { d with images := d.images ++ [a], has_images := true }
  | none => d

/-- `FeedbackData.remove_image`: `if 0 <= index < len(self.images):` pop and
recompute `has_images`. -/
def FeedbackData.remove_image (d : FeedbackData) (index : Int) : FeedbackData :=
  if 0 ≤ index ∧ index < (d.images.length : Int) then
    let imgs := d.images.eraseIdx index.toNat
    { d with images := imgs, has_images := decide (0 < imgs.length) }
  else d

/-- `FeedbackData.clear_images`. -/
def FeedbackData.clear_images (d : FeedbackData) : FeedbackData :=
  { d with images := [], has_images := false }

/-- `FeedbackData.is_valid`: `has_text or has_images`. -/
def FeedbackData.is_valid (d : FeedbackData) : Bool :=
  d.has_text || d.has_images

/-- `FeedbackData.get_image_count`. -/
def FeedbackData.get_image_count (d : FeedbackData) : Nat :=
  d.images.length

/-- `FeedbackData.get_image_sources`. -/
def FeedbackData.get_image_sources (d : FeedbackData) : List PyStr :=
  d.images.map (fun img => img.source)

/-- `FeedbackData.get_image_data_list`:
`[img.get('data') for img in self.images if img.get('data')]`. -/
def FeedbackData.get_image_data_list (d : FeedbackData) : List PyBytes :=
  (d.images.filter (fun img => !img.data.isEmpty)).map (fun img => img.data)

/-- A result dictionary crossing the handoff channel: either the
`to_dict` snapshot (`success: True`) or a `{'success': False, 'message': m}`
failure/cancellation dictionary. -/
inductive PyResult where
  | ok (text_feedback : Option PyStr) (images : List PyBytes) (image_sources : List PyStr)
      (has_text : Bool) (has_images : Bool) (image_count : Nat) : PyResult
  | err (message : String) : PyResult
deriving Repr, DecidableEq

/-- `FeedbackData.to_dict`. -/
def FeedbackData.to_dict (d : FeedbackData) : PyResult :=
  .ok d.text_feedback d.get_image_data_list d.get_image_sources
    d.has_text d.has_images d.get_image_count

/-- The `images` field of a result dictionary. -/
def PyResult.imagesOf : PyResult → List PyBytes
  | .ok _ imgs _ _ _ _ => imgs
  | .err _ => []

/-- The `image_count` field of a result dictionary. -/
def PyResult.imageCountOf : PyResult → Nat
  | .ok _ _ _ _ _ n => n
  | .err _ => 0

/-- `FeedbackCollector.__init__`. -/
structure FeedbackCollector where
  timeout_seconds : Int
  feedback_data : FeedbackData
  result_queue : List PyResult
  is_cancelled : Bool
  is_submitted : Bool
deriving Repr, DecidableEq

/-- A freshly constructed `FeedbackCollector(timeout_seconds)`. -/
def FeedbackCollector.init (timeout_seconds : Int) : FeedbackCollector :=
  { timeout_seconds := timeout_seconds, feedback_data := FeedbackData.init,
    result_queue := [], is_cancelled := false, is_submitted := false }

/-- `FeedbackCollector.reset`: fresh session, clear both flags, and drain the
queue (the `while not empty: get_nowait()` loop empties it). -/
def FeedbackCollector.reset (c : FeedbackCollector) : FeedbackCollector :=
  { c with feedback_data := FeedbackData.init, is_cancelled := false,
           is_submitted := false, result_queue := [] }

/-- `FeedbackCollector.add_text_feedback` (the `try` never fails in the pure
model, so it returns `True`). -/
def FeedbackCollector.add_text_feedback (c : FeedbackCollector) (text : PyStr) :
    FeedbackCollector × Bool :=
  ({ c with feedback_data := c.feedback_data.add_text_feedback text }, true)

/-- `FeedbackCollector.add_image`. -/
def FeedbackCollector.add_image (c : FeedbackCollector) (image_data : Option Attachment) :
    FeedbackCollector × Bool :=
  ({ c with feedback_data := c.feedback_data.add_image image_data }, true)

/-- `FeedbackCollector.remove_image`. -/
def FeedbackCollector.remove_image (c : FeedbackCollector) (index : Int) :
    FeedbackCollector × Bool :=
  ({ c with feedback_data := c.feedback_data.remove_image index }, true)

/-- `FeedbackCollector.clear_images`. -/
def FeedbackCollector.clear_images (c : FeedbackCollector) : FeedbackCollector × Bool :=
  ({ c with feedback_data := c.feedback_data.clear_images }, true)

/-- `FeedbackCollector.submit_feedback`: invalid data returns a failure
dictionary without touching the queue; otherwise set `is_submitted`, snapshot
`to_dict`, and `result_queue.put` it. -/
def FeedbackCollector.submit_feedback (c : FeedbackCollector) :
    FeedbackCollector × PyResult :=
  if c.feedback_data.is_valid = false then
    (c, .err no_feedback_error)
  else
    let result := c.feedback_data.to_dict
    ({ c with is_submitted := true, result_queue := c.result_queue ++ [result] }, result)

/-- `FeedbackCollector.cancel_feedback`: set `is_cancelled` and put the
cancellation dictionary. -/
def FeedbackCollector.cancel_feedback (c : FeedbackCollector) :
    FeedbackCollector × PyResult :=
  let result := PyResult.err operation_cancelled
  ({ c with is_cancelled := true, result_queue := c.result_queue ++ [result] }, result)

/-- `FeedbackCollector.wait_for_result`: `result_queue.get(timeout=...)`.
With no concurrent publisher, an empty queue times out (`None`); otherwise the
front (FIFO) element is returned and removed. -/
def FeedbackCollector.wait_for_result (c : FeedbackCollector) :
    FeedbackCollector × Option PyResult :=
  match c.result_queue with
  | [] => (c, none)
  | r :: rest => ({ c with result_queue := rest }, some r)

/-- `not text or len(text.strip()) < 1` for an optional text. -/
def textBlank : Option PyStr → Bool
  | none => true
  | some t => t.isEmpty || (pyStrip t).isEmpty

/-- `len(text)` for an optional text (`0` for `None`; the `None` case is
unreachable in `validate_feedback` because the blank check fires first). -/
def textLen : Option PyStr → Nat
  | none => 0
  | some t => t.length

/-- `FeedbackCollector.validate_feedback`, with Python's sequential early
returns flattened into an if-chain. -/
def FeedbackCollector.validate_feedback (c : FeedbackCollector) : Bool × String :=
  let d := c.feedback_data
  if d.is_valid = false then
    (false, no_feedback_error)
  else if d.has_text && textBlank d.text_feedback then
    (false, text_empty_error)
  else if d.has_text && decide (10000 < textLen d.text_feedback) then
    (false, text_too_long_error)
  else if d.has_images && decide (10 < d.images.length) then
    (false, too_many_images_error)
  else if d.has_images then
    match d.images.findIdx? (fun img => img.data.isEmpty) with
    | some i => (false, invalid_image_error i)
    | none => (true, validation_passed)
  else (true, validation_passed)

/-- A terminal user action publishing into the channel (spec §4.3 "publish"). -/
inductive TerminalAction where
  | submit
  | cancel
deriving Repr, DecidableEq

/-- Run one terminal action on the collector. -/
def runTerminal (c : FeedbackCollector) : TerminalAction → FeedbackCollector × PyResult
  | .submit => c.submit_feedback
  | .cancel => c.cancel_feedback

/-- One `FeedbackData` mutator call with its argument. -/
inductive Mutation where
  | addText (s : PyStr)
  | addImage (a : Option Attachment)
  | removeImage (i : Int)
  | clearImages
deriving Repr, DecidableEq

/-- Apply one mutator to a session. -/
def applyMutation (d : FeedbackData) : Mutation → FeedbackData
  | .addText s => d.add_text_feedback s
  | .addImage a => d.add_image a
  | .removeImage i => d.remove_image i
  | .clearImages => d.clear_images

/-- A session reached from the fresh state by a mutator sequence. -/
def runMutations (ms : List Mutation) : FeedbackData :=
  ms.foldl applyMutation FeedbackData.init

/-- The representation invariant of `FeedbackData` (spec §3): `has_text`
mirrors a stored, stripped, non-empty text; `has_images` mirrors list
non-emptiness. -/
def FeedbackData.Inv (d : FeedbackData) : Prop :=
  (match d.text_feedback with
   | none => d.has_text = false
   | some t => d.has_text = true ∧ t ≠ [] ∧ pyStrip t = t) ∧
  (d.has_images = true ↔ d.images ≠ [])

lemma inv_init : FeedbackData.Inv FeedbackData.init := by
  constructor
  · rfl
  · simp [FeedbackData.init]

lemma inv_applyMutation {d : FeedbackData} (h : d.Inv) (m : Mutation) :
    (applyMutation d m).Inv := by
  obtain ⟨htext, himg⟩ := h
  cases m with
  | addText s =>
      simp only [applyMutation, FeedbackData.add_text_feedback]
      split
      · rename_i hcond
        refine ⟨⟨rfl, hcond.2, pyStrip_idem s⟩, ?_⟩
        simpa using himg
      · exact ⟨htext, himg⟩
  | addImage a =>
      cases a with
      | none => exact ⟨htext, himg⟩
      | some a =>
          refine ⟨htext, ?_⟩
          simp [applyMutation, FeedbackData.add_image]
  | removeImage i =>
      simp only [applyMutation, FeedbackData.remove_image]
      split
      · refine ⟨htext, ?_⟩
        simp only [decide_eq_true_eq]
        constructor
        · intro hlen
          exact List.ne_nil_of_length_pos hlen
        · intro hne
          exact List.length_pos.mpr hne
      · exact ⟨htext, himg⟩
  | clearImages =>
      refine ⟨htext, ?_⟩
      simp [applyMutation, FeedbackData.clear_images]

lemma inv_runMutations (ms : List Mutation) : (runMutations ms).Inv := by
  have key : ∀ (l : List Mutation) (d : FeedbackData), d.Inv → (l.foldl applyMutation d).Inv := by
    intro l
    induction l with
    | nil => intro d hd; exact hd
    | cons m l ih =>
        intro d hd
        exact ih _ (inv_applyMutation hd m)
  exact key ms _ inv_init

/-- The dictionary stored in `ModernFeedbackDialog.result` by a terminal
handler: `_on_submit` builds the success dictionary, `_on_cancel` the
`operation_cancelled` failure, `_on_timeout` the `timeout_error` failure. -/
inductive DialogResult where
  | submitted (has_text : Bool) (text_feedback : PyStr) (has_images : Bool)
      (images : List PyBytes) : DialogResult
  | cancelled : DialogResult
  | timedOut : DialogResult
deriving Repr, DecidableEq

/-- An event processed by the dialog's pump loop while it is visible.  The
click events carry the text area and image gallery contents at click time;
`cancelClick` carries the answer the user gives to the confirmation box. -/
inductive DialogEvent where
  | submitClick (text : PyStr) (images : List Attachment) : DialogEvent
  | cancelClick (text : PyStr) (images : List Attachment) (confirmed : Bool) : DialogEvent
  | timerFire : DialogEvent
deriving Repr, DecidableEq

/-- The dialog state driving `show_dialog`'s `while not self.is_hidden` loop. -/
structure DialogState where
  result : Option DialogResult
  is_hidden : Bool
  timer_armed : Bool
deriving Repr, DecidableEq

/-- One step of the dialog: `_on_submit` / `_on_cancel` / `_on_timeout`.
Handlers run only while the window is visible (the pump loop has exited once
`is_hidden` is set, and `show_dialog` cancels the timer job on exit), and the
timer can fire only if it was armed. -/
def dialogStep (s : DialogState) (e : DialogEvent) : DialogState :=
  if s.is_hidden then s
  else
    match e with
    | .submitClick text images =>
        let t := pyStrip text
        if t.isEmpty && images.isEmpty then s
        else
          { s with
            result := some (.submitted (!t.isEmpty) t (!images.isEmpty)
              (images.map (fun img => img.data))),
            is_hidden := true }
    | .cancelClick text images confirmed =>
        let ht := !(pyStrip text).isEmpty
        let hi := !images.isEmpty
        if (ht || hi) && !confirmed then s
        else { s with result := some .cancelled, is_hidden := true }
    | .timerFire =>
        if s.timer_armed then { s with result := some .timedOut, is_hidden := true }
        else s

/-- `ModernFeedbackDialog.show_dialog`: reset state, arm the one-shot timer
only when `timeout_seconds > 0`, pump events until hidden, return `result`. -/
def show_dialog (timeout_seconds : Int) (events : List DialogEvent) : Option DialogResult :=
  (events.foldl dialogStep
    { result := none, is_hidden := false, timer_armed := decide (0 < timeout_seconds) }).result

/-- `DEFAULT_DIALOG_TIMEOUT = 600` in `server.py`. -/
def DEFAULT_DIALOG_TIMEOUT : Int := 600

/-- `DIALOG_TIMEOUT = int(os.getenv("MCP_DIALOG_TIMEOUT", DEFAULT_DIALOG_TIMEOUT))`:
the parsed value of the `MCP_DIALOG_TIMEOUT` environment variable when it is
set, the default otherwise. -/
def DIALOG_TIMEOUT (envDialogTimeout : Option Int) : Int :=
  match envDialogTimeout with
  | some v => v
  | none => DEFAULT_DIALOG_TIMEOUT

/-- One element of the list returned by the `collect_feedback` tool:
a `TextContent` part (carrying the submitted text; the localization template
`user_text_feedback` around it is out of scope) or an `MCPImage` part. -/
inductive FeedbackItem where
  | textContent (text : PyStr) : FeedbackItem
  | image (data : PyBytes) : FeedbackItem
deriving Repr, DecidableEq

/-- Whether an item is the text part. -/
def FeedbackItem.isText : FeedbackItem → Bool
  | .textContent _ => true
  | .image _ => false

/-- `collect_feedback` in `server.py`: raise on environment failure, `None`
result, or a non-success result; otherwise build the item list — the text part
first when `has_text`, then one image part per truthy payload in
`result['images']`. -/
def collect_feedback (env_ok : Bool) (result : Option DialogResult) :
    Except String (List FeedbackItem) :=
  if env_ok = false then .error "env_validation_failed"
  else
    match result with
    | none => .error "timeout_error"
    | some .cancelled => .error operation_cancelled
    | some .timedOut => .error "timeout_error"
    | some (.submitted ht tf hi imgs) =>
        .ok ((if ht then [FeedbackItem.textContent tf] else []) ++
          (if hi then (imgs.filter (fun b => !b.isEmpty)).map FeedbackItem.image else []))

/-- A validation violation, named as in spec §4.2. -/
inductive Violation where
  | NoFeedback
  | TextTooLong
  | TooManyImages
  | InvalidImageAt (index : Nat)
deriving Repr, DecidableEq

/-- Modelled from the spec's words (§4.2), for comparison with
`FeedbackCollector.validate_feedback`: the four checks in the spec's fixed
order, first failure wins, per-image checks in index order. -/
def spec_validate (d : FeedbackData) : Option Violation :=
  if d.has_text = false ∧ d.has_images = false then some .NoFeedback
  else if d.has_text = true ∧ 10000 < textLen d.text_feedback then some .TextTooLong
  else if 10 < d.images.length then some .TooManyImages
  else
    match d.images.findIdx? (fun img => img.data.isEmpty) with
    | some i => some (.InvalidImageAt i)
    | none => none

/-- The message `validate_feedback` reports for each violation. -/
def violationMessage : Violation → String
  | .NoFeedback => no_feedback_error
  | .TextTooLong => text_too_long_error
  | .TooManyImages => too_many_images_error
  | .InvalidImageAt i => invalid_image_error i

/-- C4: after `reset()` the handoff channel contains no value, the session is
fresh, the per-cycle flags are cleared, and an `acquire` (`wait_for_result`)
immediately after `reset` with no intervening publish observes no Result from
a prior cycle (it times out with `None`), however many values the prior cycle
left in the channel. -/
theorem claim_C4 (c : FeedbackCollector) :
    c.reset.feedback_data = FeedbackData.init ∧
    c.reset.result_queue = [] ∧
    c.reset.is_cancelled = false ∧
    c.reset.is_submitted = false ∧
    (c.reset.wait_for_result).2 = none :=
  ⟨rfl, rfl, rfl, rfl, rfl⟩

/-- C6: when the session is invalid, `submit_feedback` returns the
no-feedback failure dictionary and leaves the whole collector — in particular
the handoff channel — unchanged, so nothing reaches a waiter. -/
theorem claim_C6 (c : FeedbackCollector) (h : c.feedback_data.is_valid = false) :
    c.submit_feedback = (c, PyResult.err no_feedback_error) := by
  simp [FeedbackCollector.submit_feedback, h]

/-- Witness for C6 at the fresh collector. -/
theorem claim_C6_witness :
    (FeedbackCollector.init 300).submit_feedback =
      (FeedbackCollector.init 300, PyResult.err no_feedback_error) :=
  claim_C6 (FeedbackCollector.init 300) (by decide)

/-- C3 counterexample: a non-null attachment with an empty payload is
appended by `add_image` (the claim says it is rejected and not appended). -/
theorem claim_C3_counterexample :
    (FeedbackData.init.add_image (some { data := [], source := ['c'] })).images =
      [{ data := [], source := ['c'] }] ∧
    (FeedbackData.init.add_image (some { data := [], source := ['c'] })).has_images = true :=
  ⟨rfl, rfl⟩

/-- C3 (amended): `add_image` appends every non-null attachment
unconditionally — empty payloads included — signalling no error (the wrapper
returns `True`); a null attachment is a no-op. -/
theorem claim_C3 (d : FeedbackData) (a : Attachment) :
    d.add_image (some a) = { d with images := d.images ++ [a], has_images := true } ∧
    d.add_image none = d ∧
    (∀ c : FeedbackCollector,
      c.add_image (some a) =
        ({ c with feedback_data := c.feedback_data.add_image (some a) }, true)) :=
  ⟨rfl, rfl, fun _ => rfl⟩

/-- C9: `remove_image(i)` is a silent no-op leaving the session unchanged for
every out-of-bounds `i` (negative included), and for in-bounds `i` removes
exactly the `i`-th image, keeping the remaining images in order. -/
theorem claim_C9 (d : FeedbackData) (i : Int) :
    (¬(0 ≤ i ∧ i < (d.images.length : Int)) → d.remove_image i = d) ∧
    ((0 ≤ i ∧ i < (d.images.length : Int)) →
      (d.remove_image i).images = d.images.take i.toNat ++ d.images.drop (i.toNat + 1) ∧
      (d.remove_image i).images.length + 1 = d.images.length ∧
      (d.remove_image i).text_feedback = d.text_feedback ∧
      (d.remove_image i).has_text = d.has_text) := by
  constructor
  · intro h
    simp [FeedbackData.remove_image, h]
  · intro h
    have hlt : i.toNat < d.images.length := by omega
    refine ⟨?_, ?_, ?_, ?_⟩ <;>
      simp [FeedbackData.remove_image, h, List.eraseIdx_eq_take_drop_succ,
        List.length_eraseIdx, hlt]
    omega

/-- Witness for C9: out-of-bounds index 5 is a no-op on a two-image session,
and in-bounds index 0 removes exactly the first image. -/
theorem claim_C9_witness :
    ({ text_feedback := none,
       images := [{ data := [1], source := ['a'] }, { data := [2], source := ['b'] }],
       has_text := false, has_images := true } : FeedbackData).remove_image 5 =
      { text_feedback := none,
        images := [{ data := [1], source := ['a'] }, { data := [2], source := ['b'] }],
        has_text := false, has_images := true } ∧
    (({ text_feedback := none,
        images := [{ data := [1], source := ['a'] }, { data := [2], source := ['b'] }],
        has_text := false, has_images := true } : FeedbackData).remove_image 0).images =
      ([{ data := [1], source := ['a'] }, { data := [2], source := ['b'] }] :
        List Attachment).take (0 : Int).toNat ++
      ([{ data := [1], source := ['a'] }, { data := [2], source := ['b'] }] :
        List Attachment).drop ((0 : Int).toNat + 1) :=
  ⟨(claim_C9 _ 5).1 (by decide), ((claim_C9 _ 0).2 (by decide)).1⟩

/-- C10: `to_dict` reports in `images` exactly the non-empty payloads in
insertion order while `image_count` counts every stored attachment, so
`images` is never longer than `image_count`; and on a session holding one
empty-payload attachment, `image_count` strictly exceeds the `images` length. -/
theorem claim_C10 :
    (∀ d : FeedbackData,
      (d.to_dict).imagesOf =
        (d.images.filter (fun a => !a.data.isEmpty)).map (fun a => a.data) ∧
      (d.to_dict).imageCountOf = d.images.length ∧
      (d.to_dict).imagesOf.length ≤ (d.to_dict).imageCountOf) ∧
    ((FeedbackData.init.add_image
        (some { data := [], source := ['c'] })).to_dict).imagesOf.length <
      ((FeedbackData.init.add_image
        (some { data := [], source := ['c'] })).to_dict).imageCountOf := by
  constructor
  · intro d
    refine ⟨rfl, rfl, ?_⟩
    simp only [FeedbackData.to_dict, PyResult.imagesOf, PyResult.imageCountOf,
      FeedbackData.get_image_data_list, FeedbackData.get_image_count, List.length_map]
    exact List.length_filter_le _ _
  · decide

/-- C1 counterexample: two `submit_feedback` calls in one cycle on a session
holding the text "h".  The second call is not a no-op: it changes the channel
(the queue grows from one Result to two), refuting "any subsequent publish
call in the same cycle is a no-op that leaves the channel unchanged". -/
theorem claim_C1_counterexample :
    ((((FeedbackCollector.init 300).add_text_feedback
        ['h']).1.submit_feedback).1.submit_feedback).1.result_queue ≠
      ((((FeedbackCollector.init 300).add_text_feedback
        ['h']).1.submit_feedback).1.result_queue) := by
  decide

/-- C1 (amended): publish is not guarded by any `published` flag.  Within one
cycle (empty channel, valid session), for every pair of terminal actions the
first publish writes its Result and the second appends a second Result behind
it, so the channel holds both in order; the cycle's single `acquire` still
observes only the first Result, by FIFO order. -/
theorem claim_C1 (c : FeedbackCollector) (a1 a2 : TerminalAction)
    (hq : c.result_queue = []) (hv : c.feedback_data.is_valid = true) :
    (runTerminal (runTerminal c a1).1 a2).1.result_queue =
      [(runTerminal c a1).2, (runTerminal (runTerminal c a1).1 a2).2] ∧
    ((runTerminal (runTerminal c a1).1 a2).1.wait_for_result).2 =
      some (runTerminal c a1).2 := by
  cases a1 <;> cases a2 <;>
    simp [runTerminal, FeedbackCollector.submit_feedback,
      FeedbackCollector.cancel_feedback, FeedbackCollector.wait_for_result, hq, hv]

/-- Witness for C1 at a concrete collector and the submit/submit pair. -/
theorem claim_C1_witness :
    (runTerminal (runTerminal (((FeedbackCollector.init 300).add_text_feedback
        ['h']).1) TerminalAction.submit).1 TerminalAction.submit).1.result_queue =
      [(runTerminal (((FeedbackCollector.init 300).add_text_feedback
          ['h']).1) TerminalAction.submit).2,
       (runTerminal (runTerminal (((FeedbackCollector.init 300).add_text_feedback
          ['h']).1) TerminalAction.submit).1 TerminalAction.submit).2] :=
  (claim_C1 (((FeedbackCollector.init 300).add_text_feedback ['h']).1)
    TerminalAction.submit TerminalAction.submit (by decide) (by decide)).1

/-- C8: on a submitted result, `collect_feedback` returns an ordered item
list with exactly one text part iff the result has text (carrying the
submitted text), followed by image parts whose payloads are an
order-preserving selection of the stored images; any text part sits at
position 0, so no image part ever precedes it. -/
theorem claim_C8 (ht : Bool) (tf : PyStr) (hi : Bool) (imgs : List PyBytes)
    (items : List FeedbackItem)
    (h : collect_feedback true (some (DialogResult.submitted ht tf hi imgs)) =
      Except.ok items) :
    ((items.filter (fun it => it.isText)).length = if ht = true then 1 else 0) ∧
    (∃ kept : List PyBytes, List.Sublist kept imgs ∧
      items = (if ht = true then [FeedbackItem.textContent tf] else []) ++
        kept.map FeedbackItem.image) ∧
    (∀ j (hj : j < items.length), (items.get ⟨j, hj⟩).isText = true → j = 0) := by
  simp only [collect_feedback, Bool.true_eq_false, if_false, Except.ok.injEq] at h
  subst h
  refine ⟨?_, ?_, ?_⟩
  · cases ht <;> cases hi <;>
      simp [FeedbackItem.isText, List.filter_append, List.filter_map, Function.comp]
  · refine ⟨(if hi = true then imgs.filter (fun b => !b.isEmpty) else []), ?_, ?_⟩
    · cases hi
      · simp
      · simp [List.filter_sublist imgs]
    · cases hi <;> simp
  · intro j hj htj
    cases ht with
    | false =>
        exfalso
        cases hi with
        | false => simp at hj
        | true =>
            simp only [Bool.false_eq_true, if_false, List.nil_append, if_true,
              List.get_eq_getElem, List.getElem_map] at htj
            simp [FeedbackItem.isText] at htj
    | true =>
        cases j with
        | zero => rfl
        | succ k =>
            exfalso
            cases hi with
            | false => simp at hj
            | true =>
                simp only [if_true, List.singleton_append, List.get_eq_getElem,
                  List.getElem_cons_succ, List.getElem_map] at htj
                simp [FeedbackItem.isText] at htj

/-- Witness for C8: submitted text "h" with one non-empty and one empty
stored image yields exactly one text part. -/
theorem claim_C8_witness :
    ([FeedbackItem.textContent ['h'], FeedbackItem.image [1]].filter
      (fun it => it.isText)).length = if (true : Bool) = true then 1 else 0 :=
  (claim_C8 true ['h'] true [[1], []]
    [FeedbackItem.textContent ['h'], FeedbackItem.image [1]] rfl).1

/-- C5: every session reachable from the fresh state by any sequence of
mutator calls satisfies the derived-flag invariants and is valid exactly when
it has text or images. -/
theorem claim_C5 (ms : List Mutation) :
    ((runMutations ms).has_text = true ↔
      ∃ t, (runMutations ms).text_feedback = some t ∧ t ≠ []) ∧
    ((runMutations ms).has_images = true ↔ (runMutations ms).images ≠ []) ∧
    ((runMutations ms).is_valid = true ↔
      ((runMutations ms).has_text = true ∨ (runMutations ms).has_images = true)) := by
  obtain ⟨htext, himg⟩ := inv_runMutations ms
  refine ⟨?_, himg, ?_⟩
  · cases hcase : (runMutations ms).text_feedback with
    | none =>
        rw [hcase] at htext
        simp [htext]
    | some t =>
        rw [hcase] at htext
        obtain ⟨hht, hne, -⟩ := htext
        simp only [hht, true_iff]
        exact ⟨t, rfl, hne⟩
  · simp [FeedbackData.is_valid]

/-- States of the dialog run whose timer is unarmed can only ever hold a
submit or cancel Result. -/
def NoTimerOutcome (s : DialogState) : Prop :=
  s.timer_armed = false ∧
  ∀ r, s.result = some r →
    (∃ ht tf hi imgs, r = DialogResult.submitted ht tf hi imgs) ∨ r = DialogResult.cancelled

lemma noTimerOutcome_step {s : DialogState} (h : NoTimerOutcome s) (e : DialogEvent) :
    NoTimerOutcome (dialogStep s e) := by
  obtain ⟨harm, hres⟩ := h
  unfold dialogStep
  split
  · exact ⟨harm, hres⟩
  · cases e with
    | submitClick text images =>
        simp only
        split
        · exact ⟨harm, hres⟩
        · refine ⟨harm, ?_⟩
          rintro r hr
          simp only [Option.some.injEq] at hr
          exact Or.inl ⟨_, _, _, _, hr.symm⟩
    | cancelClick text images confirmed =>
        simp only
        split
        · exact ⟨harm, hres⟩
        · refine ⟨harm, ?_⟩
          rintro r hr
          simp only [Option.some.injEq] at hr
          exact Or.inr hr.symm
    | timerFire =>
        simp only [harm, Bool.false_eq_true, if_false]
        exact ⟨harm, hres⟩

lemma noTimerOutcome_run {s : DialogState} (h : NoTimerOutcome s)
    (events : List DialogEvent) : NoTimerOutcome (events.foldl dialogStep s) := by
  induction events generalizing s with
  | nil => exact h
  | cons e es ih => exact ih (noTimerOutcome_step h e)

/-- C7: the configured timeout defaults to 600 seconds and takes the value of
the environment variable when set; for every timeout `t ≤ 0`, `show_dialog`
arms no timer and no run of the pump loop can ever end with the `TimedOut`
Result — a Result appears only through a terminal submit or cancel action. -/
theorem claim_C7 :
    DIALOG_TIMEOUT none = 600 ∧
    (∀ v : Int, DIALOG_TIMEOUT (some v) = v) ∧
    (∀ (t : Int) (events : List DialogEvent), t ≤ 0 →
      decide (0 < t) = false ∧
      ∀ r, show_dialog t events = some r →
        (∃ ht tf hi imgs, r = DialogResult.submitted ht tf hi imgs) ∨
          r = DialogResult.cancelled) := by
  refine ⟨rfl, fun v => rfl, fun t events hle => ?_⟩
  have harm : decide (0 < t) = false := by
    simp only [decide_eq_false_iff_not]
    omega
  refine ⟨harm, ?_⟩
  have hrun := noTimerOutcome_run
    (s := { result := none, is_hidden := false, timer_armed := decide (0 < t) })
    ⟨harm, by intro r hr; cases hr⟩ events
  exact hrun.2

/-- Witness for C7 at timeout 0: no timer is armed, a timer event is inert,
and an unconfirmed-empty cancel ends the run with the cancelled Result. -/
theorem claim_C7_witness :
    DIALOG_TIMEOUT none = 600 ∧
    DIALOG_TIMEOUT (some 5) = 5 ∧
    decide ((0 : Int) < 0) = false ∧
    ((∃ ht tf hi imgs, DialogResult.cancelled = DialogResult.submitted ht tf hi imgs) ∨
      DialogResult.cancelled = DialogResult.cancelled) := by
  have h := claim_C7
  exact ⟨h.1, h.2.1 5,
    (h.2.2 0 [DialogEvent.timerFire, DialogEvent.cancelClick [] [] false] (by decide)).1,
    (h.2.2 0 [DialogEvent.timerFire, DialogEvent.cancelClick [] [] false] (by decide)).2
      DialogResult.cancelled (by decide)⟩

lemma validate_matches_spec (c : FeedbackCollector) (h : c.feedback_data.Inv) :
    c.validate_feedback =
      (match spec_validate c.feedback_data with
       | none => (true, validation_passed)
       | some v => (false, violationMessage v)) := by
  obtain ⟨htext, himg⟩ := h
  cases hT : c.feedback_data.text_feedback with
  | none =>
      rw [hT] at htext
      cases hI : c.feedback_data.has_images with
      | false =>
          have himgs : c.feedback_data.images = [] := by
            by_contra hne
            have hx := himg.mpr hne
            rw [hI] at hx
            cases hx
          simp [FeedbackCollector.validate_feedback, spec_validate,
            FeedbackData.is_valid, violationMessage, htext, hI, himgs]
      | true =>
          simp only [FeedbackCollector.validate_feedback, spec_validate,
            FeedbackData.is_valid, violationMessage, htext, hI, Bool.false_or,
            Bool.true_eq_false, Bool.false_and, Bool.false_eq_true, and_false,
            false_and, Bool.true_and, if_false, if_true, and_true, true_and]
          by_cases hlen : 10 < c.feedback_data.images.length
          · simp [hlen]
          · simp only [hlen, decide_False, if_false, decide_eq_true_eq]
            cases hf : c.feedback_data.images.findIdx? (fun img => img.data.isEmpty) <;>
              simp [hf, violationMessage]
  | some t =>
      rw [hT] at htext
      obtain ⟨hht, hne, hstrip⟩ := htext
      have hie : t.isEmpty = false := by
        cases t with
        | nil => exact absurd rfl hne
        | cons a l => rfl
      have hblank : textBlank c.feedback_data.text_feedback = false := by
        rw [hT]
        simp [textBlank, hstrip, hie]
      have htlen : textLen c.feedback_data.text_feedback = t.length := by
        rw [hT]
        simp [textLen]
      simp only [FeedbackCollector.validate_feedback, spec_validate,
        FeedbackData.is_valid, hht, hblank, htlen, Bool.true_or, Bool.true_eq_false,
        Bool.and_false, Bool.false_eq_true, false_and, if_false, Bool.true_and,
        true_and, and_false]
      by_cases hlong : 10000 < t.length
      · simp [hlong, violationMessage]
      · simp only [hlong, decide_False, if_false, decide_eq_true_eq]
        cases hI : c.feedback_data.has_images with
        | false =>
            have himgs : c.feedback_data.images = [] := by
              by_contra hnei
              have hx := himg.mpr hnei
              rw [hI] at hx
              cases hx
            simp [himgs]
        | true =>
            simp only [Bool.true_and, if_true]
            by_cases hlen : 10 < c.feedback_data.images.length
            · simp [hlen, violationMessage]
            · simp only [hlen, decide_False, if_false, decide_eq_true_eq]
              cases hf : c.feedback_data.images.findIdx? (fun img => img.data.isEmpty) <;>
                simp [hf, violationMessage]

/-- C2: under the session invariant, `validate_feedback` agrees everywhere
with the spec-side checker `spec_validate` (§4.2 fixed order, per-image checks
in index order, first failure wins, with the matching message), and it fails
exactly when (no text and no images) or (text present and longer than 10000)
or (more than 10 images) or (some stored image has an empty payload). -/
theorem claim_C2 (c : FeedbackCollector) (h : c.feedback_data.Inv) :
    c.validate_feedback =
      (match spec_validate c.feedback_data with
       | none => (true, validation_passed)
       | some v => (false, violationMessage v)) ∧
    ((c.validate_feedback).1 = false ↔
      ((c.feedback_data.has_text = false ∧ c.feedback_data.has_images = false) ∨
       (∃ t, c.feedback_data.text_feedback = some t ∧ 10000 < t.length) ∨
       10 < c.feedback_data.images.length ∨
       (∃ a ∈ c.feedback_data.images, a.data = []))) := by
  have heq := validate_matches_spec c h
  obtain ⟨htext, himg⟩ := h
  refine ⟨heq, ?_⟩
  rw [heq]
  cases hs : spec_validate c.feedback_data with
  | none =>
      simp only [Bool.true_eq_false, false_iff]
      simp only [spec_validate] at hs
      split at hs
      · cases hs
      · split at hs
        · cases hs
        · split at hs
          · cases hs
          · rename_i hc1 hc2 hc3
            rintro (hd1 | ⟨t, hsome, hlen⟩ | hd3 | ⟨a, hmem, hempty⟩)
            · exact hc1 hd1
            · rw [hsome] at htext
              refine hc2 ⟨htext.1, ?_⟩
              rw [hsome]
              simpa [textLen] using hlen
            · exact hc3 hd3
            · cases hf : c.feedback_data.images.findIdx? (fun img => img.data.isEmpty) with
              | none =>
                  rw [List.findIdx?_eq_none_iff] at hf
                  have := hf a hmem
                  rw [hempty] at this
                  cases this
              | some i =>
                  rw [hf] at hs
                  cases hs
  | some v =>
      simp only [eq_self_iff_true, true_iff]
      simp only [spec_validate] at hs
      split at hs
      · rename_i hc1
        exact Or.inl hc1
      · split at hs
        · rename_i hc2
          obtain ⟨hht, hlen⟩ := hc2
          cases hT : c.feedback_data.text_feedback with
          | none =>
              rw [hT] at htext
              rw [htext] at hht
              cases hht
          | some t =>
              refine Or.inr (Or.inl ⟨t, rfl, ?_⟩)
              rw [hT] at hlen
              simpa [textLen] using hlen
        · split at hs
          · rename_i hc3
            exact Or.inr (Or.inr (Or.inl hc3))
          · cases hf : c.feedback_data.images.findIdx? (fun img => img.data.isEmpty) with
            | none =>
                rw [hf] at hs
                cases hs
            | some i =>
                refine Or.inr (Or.inr (Or.inr ?_))
                by_contra hnone
                push_neg at hnone
                have hfn : c.feedback_data.images.findIdx? (fun img => img.data.isEmpty) =
                    none := by
                  rw [List.findIdx?_eq_none_iff]
                  intro a hmem
                  have hne := hnone a hmem
                  cases hae : a.data with
                  | nil => exact absurd hae hne
                  | cons x xs => simp [hae]
                rw [hfn] at hf
                cases hf

/-- Witness for C2: the fresh, empty session fails validation (no text and no
images). -/
theorem claim_C2_witness :
    ((FeedbackCollector.init 300).validate_feedback).1 = false :=
  (claim_C2 (FeedbackCollector.init 300) ⟨rfl, by decide⟩).2.mpr (Or.inl ⟨rfl, rfl⟩)
